import Mathlib

/-!
Shallow embedding of the message-routing, payload-building, delivery-reporting
and webhook-configuration logic of `bot.py` (a Discord → n8n forwarding bot).

Conventions of the embedding:
* Python strings are modelled as `List Char` (`Str`); Python `str.replace` and
  `str.strip` are modelled by `pyReplace` and `pyStrip` below, and Python
  truthiness of an `Optional[str]` by `pyTruthy`.
* Discord/network effects are inputs: the Firestore lookup is a function
  argument, and the outcome of the single `requests.post` call is a
  `DeliveryOutcome` argument.  The observable effects of the `on_message`
  handler (webhook POSTs attempted, visible chat messages sent, whether
  `bot.process_commands` ran, the logged HTTP status) are collected in a
  `HandleResult`.
* The Firestore collection `discord_webhooks` is modelled as an association
  list from document id to document (`Firestore`); the helper functions
  `set_channel_webhook`, `get_channel_webhook`, `delete_channel_webhook` and
  `get_all_guild_webhooks` mirror bot.py lines 58-93 on the path where the
  database client is initialized.
-/

set_option autoImplicit false

abbrev Str := List Char

/-- Decimal rendering of a numeric Discord id, as Python `str(n)` / f-strings. -/
def natStr (n : Nat) : Str := Nat.toDigits 10 n

/-- Python truthiness of an `Optional[str]` value: `None` and `""` are falsy. -/
def pyTruthy : Option Str → Bool
  | none => false
  | some [] => false
  | some (_ :: _) => true

/-- ASCII whitespace stripped by Python `str.strip()`. -/
def pyIsSpace (c : Char) : Bool :=
  c = ' ' || c = '\t' || c = '\n' || c = '\r' || c = '\x0b' || c = '\x0c'

/-- Python `str.strip()`: drop leading and trailing whitespace. -/
def pyStrip (s : Str) : Str :=
  ((s.dropWhile pyIsSpace).reverse.dropWhile pyIsSpace).reverse

/-- Fuel-indexed worker for `pyReplace`; the fuel is the input length, which
bounds the number of steps.  At each position, if the (nonempty) pattern is a
prefix, emit the replacement and skip the pattern; otherwise keep the
character.  (The empty-pattern corner of Python `str.replace` is never
exercised by bot.py, whose pattern is the nonempty mention token.) -/
def pyReplaceAux (pat rep : Str) : Nat → Str → Str
  | _, [] => []
  | 0, s => s
  | fuel + 1, c :: cs =>
    if !pat.isEmpty && pat.isPrefixOf (c :: cs) then
      rep ++ pyReplaceAux pat rep fuel (List.drop pat.length (c :: cs))
    else
      c :: pyReplaceAux pat rep fuel cs

/-- Python `content.replace(pat, rep)`: replace all occurrences, scanning left
to right without overlap. -/
def pyReplace (pat rep s : Str) : Str := pyReplaceAux pat rep s.length s

/-- The literal mention token `f"<@{bot.user.id}>"` (bot.py line 138). -/
def mention_text (botUserId : Nat) : Str :=
  '<' :: '@' :: (natStr botUserId ++ ['>'])

/-- A guild (server), as used by `on_message`: id and name. -/
structure Guild where
  id : Nat
  name : Str
deriving DecidableEq

/-- A role carried by a guild member; only the administrator permission bit is
consulted (bot.py line 172). -/
structure Role where
  administrator : Bool
deriving DecidableEq

/-- The fields of a Discord message event consumed by `on_message`.
`isDM` models `isinstance(message.channel, discord.DMChannel)`, `mentionsBot`
models `bot.user.mentioned_in(message)`, `guild` models `message.guild`
(absent for direct messages), `channelName` models the optional
`message.channel.name` attribute. -/
structure Message where
  authorBot : Bool
  authorId : Nat
  authorName : Str
  authorDiscriminator : Str
  authorTag : Str
  content : Str
  isDM : Bool
  mentionsBot : Bool
  guild : Option Guild
  channelId : Nat
  channelName : Option Str
  channelTypeName : Str
  messageId : Nat
  jumpUrl : Str
  createdAtIso : Str
  authorRoles : List Role
deriving DecidableEq

/-- Process-level context of the running bot: its user id and the optional
global `WEBHOOK_URL` environment value (bot.py line 16). -/
structure BotCtx where
  userId : Nat
  globalWebhookUrl : Option Str
deriving DecidableEq

/-- The trigger reason written into the payload `source` field
(bot.py line 170). -/
inductive Source where
  | mention
  | dm
  | channel_webhook_trigger
deriving DecidableEq

/-- The `user` sub-object of the webhook payload (bot.py lines 150-155). -/
structure PayloadUser where
  id : Str
  username : Str
  discriminator : Str
  tag : Str
deriving DecidableEq

/-- The `channel` sub-object of the webhook payload (bot.py lines 158-162). -/
structure PayloadChannel where
  id : Str
  name : Str
  type : Str
deriving DecidableEq

/-- The `guild` sub-object of the webhook payload (bot.py lines 163-166). -/
structure PayloadGuild where
  id : Option Str
  name : Option Str
deriving DecidableEq

/-- The JSON payload POSTed to the webhook (bot.py lines 149-175). -/
structure Payload where
  user : PayloadUser
  content : Str
  original_content : Str
  channel : PayloadChannel
  guild : PayloadGuild
  message_id : Str
  message_link : Option Str
  timestamp : Str
  source : Source
  is_admin : Bool
deriving DecidableEq

/-- Builds the payload dict of bot.py lines 149-175 from the message, the
already-computed clean content and the trigger reason. -/
def buildPayload (msg : Message) (clean_content : Str) (src : Source) : Payload where
  user :=
    { id := natStr msg.authorId
      username := msg.authorName
      discriminator := msg.authorDiscriminator
      tag := msg.authorTag }
  content := clean_content
  original_content := msg.content
  channel :=
    { id := natStr msg.channelId
      name := msg.channelName.getD ("DM".data)
      type := msg.channelTypeName }
  guild :=
    { id := msg.guild.map (fun g => natStr g.id)
      name := msg.guild.map (fun g => g.name) }
  message_id := natStr msg.messageId
  message_link := if msg.guild.isSome then some msg.jumpUrl else none
  timestamp := msg.createdAtIso
  source := src
  is_admin :=
    if msg.guild.isSome then msg.authorRoles.any (fun r => r.administrator) else false

/-- Outcome of the single `requests.post` call: either an HTTP response with
some status code, or a transport-level `RequestException` with a message. -/
inductive DeliveryOutcome where
  | httpResponse (status : Nat)
  | transportError (e : String)
deriving DecidableEq

/-- Observable effects of one run of the `on_message` handler:
the webhook POSTs attempted (url and payload), the visible chat message sent
via `message.channel.send` if any, whether `bot.process_commands` was reached,
and the HTTP status recorded by the logger if a response was received. -/
structure HandleResult where
  posts : List (Str × Payload)
  visibleError : Option String
  processedCommands : Bool
  loggedStatus : Option Nat
deriving DecidableEq

/-- The error text sent when no webhook URL is configured (bot.py line 145). -/
def configErrorMsg : String :=
  "Error: No webhook URL configured for this channel or globally. Please use `/setup`."

/-- The error text sent on a transport failure (bot.py line 189),
`f"Error sending message to webhook: {e}"`. -/
def webhookErrorMsg (e : String) : String :=
  "Error sending message to webhook: " ++ e

/-- The per-channel config lookup of bot.py lines 127-129: consult the store
only when the message has a guild. -/
def channel_webhook_lookup (cfg : Nat → Nat → Option Str) (msg : Message) : Option Str :=
  match msg.guild with
  | some g => cfg g.id msg.channelId
  | none => none

/-- The `on_message` event handler (bot.py lines 118-191), as a pure function
from the bot context, the per-channel config lookup, the outcome the network
would give to a POST, and the message, to its observable effects. -/
def on_message (bot : BotCtx) (cfg : Nat → Nat → Option Str)
    (outcome : DeliveryOutcome) (msg : Message) : HandleResult :=
  if msg.authorBot then
    { posts := [], visibleError := none, processedCommands := false, loggedStatus := none }
  else
    let is_dm := msg.isDM
    let is_mention := msg.mentionsBot
    let channel_webhook_url := channel_webhook_lookup cfg msg
    if !(is_dm || is_mention || pyTruthy channel_webhook_url) then
      { posts := [], visibleError := none, processedCommands := true, loggedStatus := none }
    else
      let clean_content := pyStrip (pyReplace (mention_text bot.userId) [] msg.content)
      let target_webhook_url :=
        if pyTruthy channel_webhook_url then channel_webhook_url else bot.globalWebhookUrl
      if !(pyTruthy target_webhook_url) then
        { posts := [], visibleError := some configErrorMsg,
          processedCommands := true, loggedStatus := none }
      else
        let src :=
          if is_mention then Source.mention
          else if is_dm then Source.dm
          else Source.channel_webhook_trigger
        let payload := buildPayload msg clean_content src
        match outcome with
        | DeliveryOutcome.httpResponse status =>
          { posts := [(target_webhook_url.getD [], payload)], visibleError := none,
            processedCommands := true, loggedStatus := some status }
        | DeliveryOutcome.transportError e =>
          { posts := [(target_webhook_url.getD [], payload)],
            visibleError := some (webhookErrorMsg e),
            processedCommands := true, loggedStatus := none }

/-- A document of the `discord_webhooks` collection, as written by
`set_channel_webhook` (bot.py line 62): the URL plus the denormalized
stringified guild and channel ids. -/
structure WebhookDoc where
  webhook_url : Str
  guild_id : Str
  channel_id : Str
deriving DecidableEq

/-- The Firestore collection `discord_webhooks`: an association list from
document id to document.  Documents written by this program are keyed by
`docKey`. -/
abbrev Firestore := List (Str × WebhookDoc)

/-- The synthetic document id `f"{guild_id}-{channel_id}"` (bot.py line 55). -/
def docKey (guild_id channel_id : Nat) : Str :=
  natStr guild_id ++ '-' :: natStr channel_id

/-- `set_channel_webhook` (bot.py lines 58-64) on the initialized-database
path: `ref.set` overwrites the document at the key with the full record. -/
def set_channel_webhook (st : Firestore) (guild_id channel_id : Nat)
    (webhook_url : Str) : Firestore :=
  (docKey guild_id channel_id,
    { webhook_url := webhook_url
      guild_id := natStr guild_id
      channel_id := natStr channel_id }) ::
    st.filter (fun p => !(p.1 == docKey guild_id channel_id))

/-- `get_channel_webhook` (bot.py lines 66-73) on the initialized-database
path: return the `webhook_url` field of the document at the key, if the
document exists. -/
def get_channel_webhook (st : Firestore) (guild_id channel_id : Nat) : Option Str :=
  match st.find? (fun p => p.1 == docKey guild_id channel_id) with
  | some p => some p.2.webhook_url
  | none => none

/-- `delete_channel_webhook` (bot.py lines 75-81) on the initialized-database
path: `ref.delete` removes the document at the key (a no-op when absent). -/
def delete_channel_webhook (st : Firestore) (guild_id channel_id : Nat) : Firestore :=
  st.filter (fun p => !(p.1 == docKey guild_id channel_id))

/-- `get_all_guild_webhooks` (bot.py lines 83-93) on the initialized-database
path: the Firestore query `where("guild_id", "==", str(guild_id))` filters the
collection's documents by equality on the stored `guild_id` field, and the
matching documents are returned. -/
def get_all_guild_webhooks (st : Firestore) (guild_id : Nat) : List WebhookDoc :=
  (st.filter (fun p => p.2.guild_id == natStr guild_id)).map (fun p => p.2)

/-- The reply of `/remove` when no configuration exists (bot.py line 237). -/
def noWebhookReply : String := "No n8n webhook is set up for this channel."

/-- The reply of `/remove` on success (bot.py lines 242-245). -/
def removedReply (channelName : String) : String :=
  "Successfully removed n8n webhook from this channel (`" ++ channelName ++
    "`). Messages will no longer be forwarded to n8n from here."

/-- Observable effects of one run of the `/remove` command: the store after
the command, the reply text, whether the reply was ephemeral (visible only to
the invoker), and whether `delete_channel_webhook` was called. -/
structure RemoveResult where
  store : Firestore
  reply : String
  ephemeral : Bool
  deleteCalled : Bool
deriving DecidableEq

/-- The `/remove` command handler (bot.py lines 225-249), on the path where
the database is initialized and the interaction happens inside a guild:
look up the existing configuration, and only if one exists (Python
truthiness: `if not existing_webhook`) call the delete. -/
def removeCmd (st : Firestore) (guild_id channel_id : Nat)
    (channelName : String) : RemoveResult :=
  if !(pyTruthy (get_channel_webhook st guild_id channel_id)) then
    { store := st, reply := noWebhookReply, ephemeral := true, deleteCalled := false }
  else
    { store := delete_channel_webhook st guild_id channel_id
      reply := removedReply channelName
      ephemeral := false
      deleteCalled := true }

/-! Concrete fixtures used by counterexamples and witnesses. -/

/-- A bot context with user id 1 and a configured global webhook URL. -/
def botA : BotCtx := { userId := 1, globalWebhookUrl := some ("https://x/global".data) }

/-- A bot context with user id 1 and no global webhook URL. -/
def botNoGlobal : BotCtx := { userId := 1, globalWebhookUrl := none }

/-- A config lookup with no per-channel URL anywhere. -/
def cfgNone : Nat → Nat → Option Str := fun _ _ => none

/-- A config lookup mapping guild 10, channel 20 to a per-channel URL. -/
def cfgH1 : Nat → Nat → Option Str := fun g c =>
  if g = 10 && c = 20 then some ("https://x/h1".data) else none

/-- A plain guild message: no mention, not a DM, author not a bot. -/
def baseMsg : Message where
  authorBot := false
  authorId := 7
  authorName := "alice".data
  authorDiscriminator := "0001".data
  authorTag := "alice#0001".data
  content := "hello".data
  isDM := false
  mentionsBot := false
  guild := some { id := 10, name := "guild".data }
  channelId := 20
  channelName := some ("general".data)
  channelTypeName := "TextChannel".data
  messageId := 500
  jumpUrl := "https://discord.com/channels/10/20/500".data
  createdAtIso := "2024-01-01T00:00:00+00:00".data
  authorRoles := []

/-- A bot-authored message in a configured channel that both is a DM-like
trigger and mentions the bot, to exercise the author guard. -/
def msgBotAuthor : Message := { baseMsg with authorBot := true, mentionsBot := true }

/-- A direct message whose text contains the bot's mention token, so the bot
is mentioned in it. -/
def msgDM : Message :=
  { baseMsg with
      isDM := true
      mentionsBot := true
      guild := none
      channelId := 99
      channelName := none
      channelTypeName := "DMChannel".data
      content := "<@1> hello".data }

/-- A direct message containing the bot's mention token twice. -/
def msgTwoMentions : Message := { msgDM with content := "<@1> hello <@1>".data }

/-- A guild message mentioning the bot. -/
def msgMention : Message := { baseMsg with mentionsBot := true, content := "<@1> hi".data }

/-- The payload the handler builds for `msgDM` under `botA`. -/
def payloadDM : Payload :=
  buildPayload msgDM
    (pyStrip (pyReplace (mention_text botA.userId) [] msgDM.content)) Source.mention

/-- C4: a message authored by an automated account is never forwarded: no
payload is built, no POST is attempted, no visible message is sent, and the
handler returns before command processing, whatever the DM/mention/config
state. -/
theorem bot_author_never_forwards (bot : BotCtx) (cfg : Nat → Nat → Option Str)
    (outcome : DeliveryOutcome) (msg : Message) (h : msg.authorBot = true) :
    on_message bot cfg outcome msg =
      { posts := [], visibleError := none, processedCommands := false,
        loggedStatus := none } := by
  simp [on_message, h]

/-- C4 witness: the guard fires on a concrete bot-authored message that
mentions the bot. -/
theorem bot_author_never_forwards_check :
    msgBotAuthor.authorBot = true ∧
      on_message botA cfgH1 (DeliveryOutcome.httpResponse 200) msgBotAuthor =
        { posts := [], visibleError := none, processedCommands := false,
          loggedStatus := none } :=
  ⟨rfl, bot_author_never_forwards botA cfgH1 (DeliveryOutcome.httpResponse 200)
    msgBotAuthor rfl⟩

/-- C5: a guild message from a non-bot author that is not a DM, does not
mention the bot, and whose (guild, channel) has no configured URL is not
forwarded and sends no visible message, and command processing still runs. -/
theorem plain_message_no_forward (bot : BotCtx) (cfg : Nat → Nat → Option Str)
    (outcome : DeliveryOutcome) (msg : Message) (g : Guild)
    (hbot : msg.authorBot = false) (hdm : msg.isDM = false)
    (hmention : msg.mentionsBot = false) (hg : msg.guild = some g)
    (hcfg : cfg g.id msg.channelId = none) :
    on_message bot cfg outcome msg =
      { posts := [], visibleError := none, processedCommands := true,
        loggedStatus := none } := by
  simp [on_message, channel_webhook_lookup, hbot, hdm, hmention, hg, hcfg, pyTruthy]

/-- C5 witness: a concrete plain guild message with no configuration falls
through to command processing. -/
theorem plain_message_no_forward_check :
    baseMsg.authorBot = false ∧ baseMsg.isDM = false ∧ baseMsg.mentionsBot = false ∧
      baseMsg.guild = some { id := 10, name := "guild".data } ∧
      cfgNone 10 20 = none ∧
      on_message botA cfgNone (DeliveryOutcome.httpResponse 200) baseMsg =
        { posts := [], visibleError := none, processedCommands := true,
          loggedStatus := none } :=
  ⟨rfl, rfl, rfl, rfl, rfl,
    plain_message_no_forward botA cfgNone (DeliveryOutcome.httpResponse 200) baseMsg
      { id := 10, name := "guild".data } rfl rfl rfl rfl rfl⟩

/-- C6: a triggering message (DM or mention) with no per-channel URL and no
global URL is dropped in the misconfigured state: no POST is attempted, the
configuration-error text is sent as a visible chat message, and the message
falls through to command processing rather than being queued. -/
theorem misconfigured_no_forward (bot : BotCtx) (cfg : Nat → Nat → Option Str)
    (outcome : DeliveryOutcome) (msg : Message)
    (hbot : msg.authorBot = false)
    (htrig : msg.isDM = true ∨ msg.mentionsBot = true)
    (hch : channel_webhook_lookup cfg msg = none)
    (hglobal : bot.globalWebhookUrl = none) :
    on_message bot cfg outcome msg =
      { posts := [], visibleError := some configErrorMsg,
        processedCommands := true, loggedStatus := none } := by
  rcases htrig with h | h <;> simp [on_message, hbot, h, hch, hglobal, pyTruthy]

/-- C6 witness: a concrete DM with no configuration anywhere produces the
visible configuration-error message and no POST. -/
theorem misconfigured_no_forward_check :
    msgDM.authorBot = false ∧ (msgDM.isDM = true ∨ msgDM.mentionsBot = true) ∧
      channel_webhook_lookup cfgNone msgDM = none ∧
      botNoGlobal.globalWebhookUrl = none ∧
      on_message botNoGlobal cfgNone (DeliveryOutcome.httpResponse 200) msgDM =
        { posts := [], visibleError := some configErrorMsg,
          processedCommands := true, loggedStatus := none } :=
  ⟨rfl, Or.inl rfl, rfl, rfl,
    misconfigured_no_forward botNoGlobal cfgNone (DeliveryOutcome.httpResponse 200)
      msgDM rfl (Or.inl rfl) rfl rfl⟩

/-- `pyTruthy` of an absent value is false. -/
theorem pyTruthy_none : pyTruthy none = false := rfl

/-- C1 counterexample: a direct message from a non-bot author whose text
contains the bot's mention token (so the bot is mentioned in it) is forwarded
with trigger reason `mention`, not `dm` — line 170 of bot.py tests
`is_mention` before `is_dm`. -/
theorem dm_reason_cex :
    msgDM.authorBot = false ∧ msgDM.isDM = true ∧
      (mention_text botA.userId).isPrefixOf msgDM.content = true ∧
      ((on_message botA cfgNone (DeliveryOutcome.httpResponse 200) msgDM).posts.map
        (fun q => q.2.source) = [Source.mention]) ∧
      ¬ ((on_message botA cfgNone (DeliveryOutcome.httpResponse 200) msgDM).posts.map
        (fun q => q.2.source) = [Source.dm]) := by
  refine ⟨rfl, rfl, rfl, rfl, ?_⟩
  decide

/-- C1 (amended): a direct message from a non-bot author, when a global
webhook URL is configured, is always forwarded to the global URL; the trigger
reason is `dm` when the bot is not mentioned and `mention` when it is; the
clean content is the source text with every occurrence of the bot's mention
token removed and surrounding whitespace stripped, and the original content
is unchanged. -/
theorem dm_routing (bot : BotCtx) (cfg : Nat → Nat → Option Str)
    (outcome : DeliveryOutcome) (msg : Message)
    (hbot : msg.authorBot = false) (hdm : msg.isDM = true) (hg : msg.guild = none)
    (hglobal : pyTruthy bot.globalWebhookUrl = true) :
    ∃ p, (on_message bot cfg outcome msg).posts = [(bot.globalWebhookUrl.getD [], p)] ∧
      p.source = (if msg.mentionsBot then Source.mention else Source.dm) ∧
      p.content = pyStrip (pyReplace (mention_text bot.userId) [] msg.content) ∧
      p.original_content = msg.content := by
  cases outcome <;>
    simp [on_message, channel_webhook_lookup, hbot, hdm, hg, hglobal, pyTruthy_none,
      buildPayload]

/-- C1 witness: the amended statement instantiated at the concrete DM. -/
theorem dm_routing_check :
    msgDM.authorBot = false ∧ msgDM.isDM = true ∧ msgDM.guild = none ∧
      pyTruthy botA.globalWebhookUrl = true ∧
      (∃ p, (on_message botA cfgNone (DeliveryOutcome.httpResponse 200) msgDM).posts =
          [(botA.globalWebhookUrl.getD [], p)] ∧
        p.source = (if msgDM.mentionsBot then Source.mention else Source.dm) ∧
        p.content = pyStrip (pyReplace (mention_text botA.userId) [] msgDM.content) ∧
        p.original_content = msgDM.content) :=
  ⟨rfl, rfl, rfl, rfl,
    dm_routing botA cfgNone (DeliveryOutcome.httpResponse 200) msgDM rfl rfl rfl rfl⟩

/-- C2: a guild message from a non-bot author that mentions the bot is
forwarded with trigger reason `mention`, also when a per-channel URL is
configured; the destination is the per-channel URL when one is configured and
otherwise the global URL, provided at least one of the two exists. -/
theorem mention_routing (bot : BotCtx) (cfg : Nat → Nat → Option Str)
    (outcome : DeliveryOutcome) (msg : Message) (g : Guild)
    (hbot : msg.authorBot = false) (hdm : msg.isDM = false) (hg : msg.guild = some g)
    (hmention : msg.mentionsBot = true)
    (hurl : (pyTruthy (cfg g.id msg.channelId) || pyTruthy bot.globalWebhookUrl) = true) :
    ∃ p, (on_message bot cfg outcome msg).posts =
        [((if pyTruthy (cfg g.id msg.channelId) then cfg g.id msg.channelId
            else bot.globalWebhookUrl).getD [], p)] ∧
      p.source = Source.mention := by
  cases hc : pyTruthy (cfg g.id msg.channelId) <;> cases outcome <;>
    simp_all [on_message, channel_webhook_lookup, buildPayload]

/-- C2 witness: the statement instantiated at a concrete mention in a channel
with a configured per-channel URL, which is preferred over the global URL. -/
theorem mention_routing_check :
    msgMention.authorBot = false ∧ msgMention.isDM = false ∧
      msgMention.guild = some { id := 10, name := "guild".data } ∧
      msgMention.mentionsBot = true ∧
      (pyTruthy (cfgH1 10 msgMention.channelId) ||
        pyTruthy botA.globalWebhookUrl) = true ∧
      (∃ p, (on_message botA cfgH1 (DeliveryOutcome.httpResponse 200) msgMention).posts =
          [((if pyTruthy (cfgH1 10 msgMention.channelId) then cfgH1 10 msgMention.channelId
              else botA.globalWebhookUrl).getD [], p)] ∧
        p.source = Source.mention) :=
  ⟨rfl, rfl, rfl, rfl, by decide,
    mention_routing botA cfgH1 (DeliveryOutcome.httpResponse 200) msgMention
      { id := 10, name := "guild".data } rfl rfl rfl rfl (by decide)⟩

/-- C3 counterexample: for a forwarded message containing the bot's mention
token twice, the clean content is not the source text with exactly one
occurrence removed — line 139 of bot.py removes every occurrence and then
strips surrounding whitespace.  Removing one occurrence of the 4-character
token from the 15-character source leaves 11 characters, but the handler
produces the 5-character `hello` (while `original_content` is unchanged). -/
theorem one_removal_cex :
    ((on_message botA cfgNone (DeliveryOutcome.httpResponse 200) msgTwoMentions).posts.map
        (fun q => (q.2.content, q.2.original_content)) =
      [("hello".data, "<@1> hello <@1>".data)]) ∧
    ¬ ∃ a b : Str, msgTwoMentions.content = a ++ mention_text botA.userId ++ b ∧
        ("hello".data : Str) = a ++ b := by
  refine ⟨rfl, ?_⟩
  rintro ⟨a, b, hc, hr⟩
  have h1 := congrArg List.length hc
  have h2 := congrArg List.length hr
  rw [List.length_append, List.length_append] at h1
  rw [List.length_append] at h2
  have e1 : msgTwoMentions.content.length = 15 := by decide
  have e2 : (mention_text botA.userId).length = 4 := by decide
  have e3 : ("hello".data : Str).length = 5 := by decide
  rw [e1, e2] at h1
  rw [e3] at h2
  omega

/-- C3 (amended): for every forwarded message, the payload's
`original_content` equals the source text unchanged, and its clean `content`
equals the source text with every occurrence of the bot's literal mention
token removed (left to right, without overlap) and leading/trailing
whitespace stripped; tokens mentioning other users are not removal targets. -/
theorem payload_content (bot : BotCtx) (cfg : Nat → Nat → Option Str)
    (outcome : DeliveryOutcome) (msg : Message) (u : Str) (p : Payload)
    (h : (on_message bot cfg outcome msg).posts = [(u, p)]) :
    p.original_content = msg.content ∧
      p.content = pyStrip (pyReplace (mention_text bot.userId) [] msg.content) := by
  by_cases h1 : msg.authorBot = true
  · simp [on_message, h1] at h
  · rw [Bool.not_eq_true] at h1
    by_cases h2 : (msg.isDM || msg.mentionsBot || pyTruthy (channel_webhook_lookup cfg msg)) = true
    · by_cases h3 : pyTruthy (if pyTruthy (channel_webhook_lookup cfg msg)
          then channel_webhook_lookup cfg msg else bot.globalWebhookUrl) = true
      · cases outcome <;>
          · simp [on_message, h1, h2, h3, buildPayload] at h
            obtain ⟨-, hp⟩ := h
            subst hp
            exact ⟨rfl, rfl⟩
      · simp [on_message, h1, h2, h3] at h
    · simp [on_message, h1, h2] at h

/-- C3 witness: the amended statement instantiated at the concrete forwarded
DM, whose payload is `payloadDM`. -/
theorem payload_content_check :
    ((on_message botA cfgNone (DeliveryOutcome.httpResponse 200) msgDM).posts =
      [(botA.globalWebhookUrl.getD [], payloadDM)]) ∧
      (payloadDM.original_content = msgDM.content ∧
        payloadDM.content =
          pyStrip (pyReplace (mention_text botA.userId) [] msgDM.content)) :=
  ⟨rfl, payload_content botA cfgNone (DeliveryOutcome.httpResponse 200) msgDM
    (botA.globalWebhookUrl.getD []) payloadDM rfl⟩

/-- C9: for every message that reaches the delivery step, exactly one POST is
attempted; when any HTTP response arrives its status is recorded and no
user-visible error is produced, whatever the status code; when the POST
raises a transport-level exception, the error text is sent as a visible chat
message; in neither case is a second attempt made. -/
theorem delivery_report (bot : BotCtx) (cfg : Nat → Nat → Option Str)
    (outcome : DeliveryOutcome) (msg : Message)
    (hbot : msg.authorBot = false)
    (htrig : (msg.isDM || msg.mentionsBot || pyTruthy (channel_webhook_lookup cfg msg)) = true)
    (hurl : pyTruthy (if pyTruthy (channel_webhook_lookup cfg msg)
        then channel_webhook_lookup cfg msg else bot.globalWebhookUrl) = true) :
    (on_message bot cfg outcome msg).posts.length = 1 ∧
      (∀ st, outcome = DeliveryOutcome.httpResponse st →
        (on_message bot cfg outcome msg).visibleError = none ∧
          (on_message bot cfg outcome msg).loggedStatus = some st) ∧
      (∀ e, outcome = DeliveryOutcome.transportError e →
        (on_message bot cfg outcome msg).visibleError = some (webhookErrorMsg e)) := by
  cases outcome <;> simp [on_message, hbot, htrig, hurl]

/-- C9 witness: instantiated at a concrete DM once with a non-2xx response
(status 404: recorded, no visible error) — the hypotheses hold and the three
conclusions follow. -/
theorem delivery_report_check :
    msgDM.authorBot = false ∧
      (msgDM.isDM || msgDM.mentionsBot || pyTruthy (channel_webhook_lookup cfgNone msgDM)) = true ∧
      pyTruthy (if pyTruthy (channel_webhook_lookup cfgNone msgDM)
        then channel_webhook_lookup cfgNone msgDM else botA.globalWebhookUrl) = true ∧
      ((on_message botA cfgNone (DeliveryOutcome.httpResponse 404) msgDM).posts.length = 1 ∧
        (∀ st, DeliveryOutcome.httpResponse 404 = DeliveryOutcome.httpResponse st →
          (on_message botA cfgNone (DeliveryOutcome.httpResponse 404) msgDM).visibleError = none ∧
            (on_message botA cfgNone (DeliveryOutcome.httpResponse 404) msgDM).loggedStatus = some st) ∧
        (∀ e, DeliveryOutcome.httpResponse 404 = DeliveryOutcome.transportError e →
          (on_message botA cfgNone (DeliveryOutcome.httpResponse 404) msgDM).visibleError =
            some (webhookErrorMsg e))) :=
  ⟨rfl, by decide, by decide,
    delivery_report botA cfgNone (DeliveryOutcome.httpResponse 404) msgDM rfl
      (by decide) (by decide)⟩

/-- C7: the store round-trips: setting the webhook for (S, C) and then
reading (S, C) returns the url just set, and deleting (S, C) and then
reading (S, C) returns absent, from any prior store state. -/
theorem store_round_trip (st : Firestore) (g c : Nat) (url : Str) :
    get_channel_webhook (set_channel_webhook st g c url) g c = some url ∧
      get_channel_webhook (delete_channel_webhook st g c) g c = none := by
  constructor
  · simp [get_channel_webhook, set_channel_webhook, List.find?]
  · have hnone : (st.filter (fun p => !(p.1 == docKey g c))).find?
        (fun p => p.1 == docKey g c) = none := by
      rw [List.find?_eq_none]
      intro x hx
      have hmem := List.mem_filter.mp hx
      simp only [Bool.not_eq_true'] at hmem
      simp [hmem.2]
    simp [get_channel_webhook, delete_channel_webhook, hnone]

/-- C8: `get_all_guild_webhooks` returns exactly the documents whose stored
(denormalized) `guild_id` field equals the decimal rendering of the queried
guild id, whatever their document keys and however many documents belong to
other guilds. -/
theorem list_by_server (st : Firestore) (g : Nat) (d : WebhookDoc) :
    d ∈ get_all_guild_webhooks st g ↔
      (∃ k, (k, d) ∈ st) ∧ d.guild_id = natStr g := by
  simp only [get_all_guild_webhooks, List.mem_map, List.mem_filter]
  constructor
  · rintro ⟨⟨k, d2⟩, ⟨hmem, hf⟩, rfl⟩
    refine ⟨⟨k, hmem⟩, ?_⟩
    simpa using hf
  · rintro ⟨⟨k, hk⟩, hgd⟩
    exact ⟨(k, d), ⟨hk, by simpa using hgd⟩, rfl⟩

/-- C10: when `/remove` is invoked in a server channel with no stored (truthy)
configuration for (guild, channel), the delete operation is not called, the
store is unchanged, and the invoker gets the ephemeral `no webhook` reply. -/
theorem remove_without_config (st : Firestore) (g c : Nat) (channelName : String)
    (h : pyTruthy (get_channel_webhook st g c) = false) :
    removeCmd st g c channelName =
      { store := st, reply := noWebhookReply, ephemeral := true,
        deleteCalled := false } := by
  simp [removeCmd, h]

/-- C10 witness: `/remove` on an empty store leaves it untouched and replies
ephemerally. -/
theorem remove_without_config_check :
    pyTruthy (get_channel_webhook [] 10 20) = false ∧
      removeCmd [] 10 20 "general" =
        { store := [], reply := noWebhookReply, ephemeral := true,
          deleteCalled := false } :=
  ⟨rfl, remove_without_config [] 10 20 "general" rfl⟩
